import Mathlib

/-!
Shallow embedding of the reconciliation and classification engine of the
retail-audit edge function (supabase/functions/audit-with-chatgpt/index.ts).
The file embeds the three concatenated variants of the edge function:

* variant 1: dimension-aware threshold resolution (findThreshold) plus unit
  conversion (convertUnit) before the cutoff comparison, batch loop with a
  per-record catch;
* variant 2: optimised implementation with an exact categoryId_unit map
  lookup (calculateIndiamartAudit), raw quantity compared to the cutoff;
* variant 3: OpenAI-SDK implementation whose deterministic logic mirrors
  variant 2 inline.

JavaScript numbers are modelled by the rationals; every decimal literal of
the source is an exact rational here.  Strings are modelled by Lean strings
with list-based helpers standing in for String.prototype.toLowerCase and
String.prototype.trim restricted to ASCII, which covers every unit and
segment literal the program compares against.
-/

/-- Pairs of upper and lower case basic latin letters, modelling the ASCII
fragment of String.prototype.toLowerCase. -/
def lowerPairs : List (Char × Char) :=
  [('A', 'a'), ('B', 'b'), ('C', 'c'), ('D', 'd'), ('E', 'e'), ('F', 'f'),
   ('G', 'g'), ('H', 'h'), ('I', 'i'), ('J', 'j'), ('K', 'k'), ('L', 'l'),
   ('M', 'm'), ('N', 'n'), ('O', 'o'), ('P', 'p'), ('Q', 'q'), ('R', 'r'),
   ('S', 's'), ('T', 't'), ('U', 'u'), ('V', 'v'), ('W', 'w'), ('X', 'x'),
   ('Y', 'y'), ('Z', 'z')]

/-- Lower-case one character (ASCII model of toLowerCase). -/
def lowerChar (c : Char) : Char :=
  match lowerPairs.find? (fun p => p.1 == c) with
  | some p => p.2
  | none => c

/-- Whitespace test modelling the characters String.prototype.trim removes,
restricted to the ASCII whitespace actually occurring in the data. -/
def wsChar (c : Char) : Bool :=
  c == ' ' || c == '\t' || c == '\n' || c == '\r'

/-- Lower-case a character list. -/
def lowerList (l : List Char) : List Char := l.map lowerChar

/-- Trim whitespace from both ends of a character list. -/
def trimList (l : List Char) : List Char :=
  List.rdropWhile wsChar (l.dropWhile wsChar)

/-- Model of String.prototype.toLowerCase. -/
def toLowerStr (s : String) : String := String.mk (lowerList s.data)

/-- Model of String.prototype.trim. -/
def trimStr (s : String) : String := String.mk (trimList s.data)

/-- Embeds normalizeUnit: empty (falsy) input yields the empty string,
otherwise lower-case then trim. -/
def normalizeUnit (unit : String) : String :=
  if unit = "" then "" else trimStr (toLowerStr unit)

/-- Dimensional categories recognised by getUnitCategory. -/
inductive Dimension where
  | weight
  | volume
  | length
  | count
deriving DecidableEq

/-- Weight units of getUnitCategory. -/
def weightUnits : List String := ["mg", "g", "kg", "tonne", "lbs", "lb", "oz", "ounce"]

/-- Volume units of getUnitCategory. -/
def volumeUnits : List String := ["ml", "l", "liter", "litre", "gallon", "pint", "cc"]

/-- Length units of getUnitCategory. -/
def lengthUnits : List String := ["mm", "cm", "m", "km", "inch", "foot", "yard", "mile"]

/-- Count units of getUnitCategory. -/
def countUnits : List String := ["piece", "pieces", "unit", "units", "dozen", "count"]

/-- Embeds getUnitCategory: normalizes its argument and classifies it by the
fixed membership lists, returning none for unrecognized units. -/
def getUnitCategory (unit : String) : Option Dimension :=
  let normalized := normalizeUnit unit
  if weightUnits.contains normalized then some Dimension.weight
  else if volumeUnits.contains normalized then some Dimension.volume
  else if lengthUnits.contains normalized then some Dimension.length
  else if countUnits.contains normalized then some Dimension.count
  else none

/-- Weight conversion factors (base gram), exactly the literals of the source. -/
def weightConversions : List (String × ℚ) :=
  [("mg", 0.001), ("g", 1), ("kg", 1000), ("tonne", 1000000),
   ("lbs", 453.592), ("lb", 453.592), ("oz", 28.3495), ("ounce", 28.3495)]

/-- Volume conversion factors (base milliliter). -/
def volumeConversions : List (String × ℚ) :=
  [("ml", 1), ("l", 1000), ("liter", 1000), ("litre", 1000), ("cc", 1),
   ("gallon", 3785.41), ("pint", 473.176)]

/-- Length conversion factors (base millimeter). -/
def lengthConversions : List (String × ℚ) :=
  [("mm", 1), ("cm", 10), ("m", 1000), ("km", 1000000), ("inch", 25.4),
   ("foot", 304.8), ("yard", 914.4), ("mile", 1609344)]

/-- Count conversion factors (base unit). -/
def countConversions : List (String × ℚ) :=
  [("piece", 1), ("pieces", 1), ("unit", 1), ("units", 1), ("dozen", 12),
   ("count", 1)]

/-- Table selection of convertUnit. -/
def conversionsFor (c : Dimension) : List (String × ℚ) :=
  match c with
  | Dimension.weight => weightConversions
  | Dimension.volume => volumeConversions
  | Dimension.length => lengthConversions
  | Dimension.count => countConversions

/-- Embeds the lookups conversions[u] with the JavaScript fallback to 1 for a
missing key.  No table stores the factor 0, so the falsy-zero corner of the
JavaScript expression never arises. -/
def lookupFactor (conversions : List (String × ℚ)) (u : String) : ℚ :=
  match conversions.find? (fun p => p.1 == u) with
  | some p => p.2
  | none => 1

/-- Embeds convertUnit of variant 1: identical normalized units and unknown or
differing dimensional categories return the value unchanged, otherwise the
value is rescaled by the two factors. -/
def convertUnit (value : ℚ) (fromUnit toUnit : String) : ℚ :=
  if normalizeUnit fromUnit = normalizeUnit toUnit then value
  else
    match getUnitCategory (normalizeUnit fromUnit), getUnitCategory (normalizeUnit toUnit) with
    | some fromCategory, some toCategory =>
      if fromCategory = toCategory then
        value * lookupFactor (conversionsFor fromCategory) (normalizeUnit fromUnit)
          / lookupFactor (conversionsFor fromCategory) (normalizeUnit toUnit)
      else value
    | some _, none => value
    | none, _ => value

/-- Threshold reference row (thresholdData element). -/
structure ThresholdEntry where
  fk_glcat_mcat_id : String
  glcat_mcat_name : String
  leap_retail_qty_cutoff : ℚ
  gl_unit_name : String
deriving DecidableEq

/-- Embeds the thresholdsByMcat grouping: the rows of one category in the
insertion order of the threshold table. -/
def thresholdsByMcat (thresholdData : List ThresholdEntry) (mcatId : String) :
    List ThresholdEntry :=
  thresholdData.filter (fun t => t.fk_glcat_mcat_id == mcatId)

/-- Embeds findThreshold of variant 1: first the exact normalized-unit match,
then the first entry sharing the dimensional category of the record unit, then
the first entry of the category; none only when the category has no rows. -/
def findThreshold (thresholdData : List ThresholdEntry) (mcatId auditUnit : String) :
    Option ThresholdEntry :=
  if (thresholdsByMcat thresholdData mcatId).isEmpty then none
  else
    match (thresholdsByMcat thresholdData mcatId).find?
        (fun t => normalizeUnit t.gl_unit_name == normalizeUnit auditUnit) with
    | some t => some t
    | none =>
      match getUnitCategory auditUnit with
      | some c =>
        match (thresholdsByMcat thresholdData mcatId).find?
            (fun t => decide (getUnitCategory (normalizeUnit t.gl_unit_name) = some c)) with
        | some t => some t
        | none => (thresholdsByMcat thresholdData mcatId).head?
      | none => (thresholdsByMcat thresholdData mcatId).head?

/-- Raw input row (rawData element).  The optional business_mcat_key field of
the request is an optional integer. -/
structure RawRecord where
  id : String
  eto_ofr_display_id : String
  fk_glcat_mcat_id : String
  eto_ofr_glcat_mcat_name : String
  quantity : ℚ
  quantity_unit : String
  probable_order_value : String
  bl_segment : String
  bl_details : String
  business_mcat_key : Option Int
deriving DecidableEq

/-- Embeds the markedAsRetail test of variants 1 and 3: the segment label
lower-cased equals one of the two retail literals. -/
def isMarkedRetail (segment : String) : Bool :=
  toLowerStr segment == "retail - indian" || toLowerStr segment == "retail - foreign"

/-- Retail segment set of variant 2 (RETAIL_SEGMENTS). -/
def RETAIL_SEGMENTS : List String := ["retail - indian", "retail - foreign"]

/-- Embeds the markedAsRetail test of variant 2 via the segment set. -/
def isMarkedRetailV2 (segment : String) : Bool :=
  RETAIL_SEGMENTS.contains (toLowerStr segment)

/-- Models the template interpolation of a JavaScript number into a string.
No claim constrains the digits, only which field carries which number. -/
def fmtNum (q : ℚ) : String :=
  if q.den = 1 then toString q.num else toString q

/-- Models Number.prototype.toFixed(2) in the rational model: round to
hundredths and print two decimals. -/
def toFixed2 (q : ℚ) : String :=
  let n : Int := round (q * 100)
  let a := n.natAbs
  let fracStr := if a % 100 < 10 then "0" ++ toString (a % 100) else toString (a % 100)
  (if n < 0 then "-" else "") ++ toString (a / 100) ++ "." ++ fracStr

/-- Deterministic classification state of one variant-1 record handler: the
mutable locals of the source at the point where the LLM call is issued. -/
structure DetState where
  mcatType : String
  indiamartOutcome : String
  indiamartCategory : String
  indiamartReason : String
  thresholdValue : String
  thresholdAvailable : Bool
  cutoff : ℚ
  convertedQuantity : ℚ
deriving DecidableEq

/-- Embeds the deterministic part of the variant-1 record handler: business
override, missing threshold, and the converted-quantity decision table. -/
def detClassify1 (thresholdData : List ThresholdEntry) (record : RawRecord) : DetState :=
  let businessMcatKey : Int := record.business_mcat_key.getD 0
  let threshold := findThreshold thresholdData record.fk_glcat_mcat_id record.quantity_unit
  let thresholdAvailable := threshold.isSome
  let markedAsRetail := isMarkedRetail record.bl_segment
  let thresholdValue :=
    match threshold with
    | some t => fmtNum t.leap_retail_qty_cutoff ++ " " ++ t.gl_unit_name
    | none => "NA"
  let cutoff : ℚ :=
    match threshold with
    | some t => t.leap_retail_qty_cutoff
    | none => 0
  if businessMcatKey = 1 then
    if markedAsRetail then
      { mcatType := "Business MCAT", indiamartOutcome := "ERROR",
        indiamartCategory := "Retail Wrongly Marked",
        indiamartReason := "Business MCAT Key = 1 requires Non-Retail classification, but system marked as Retail",
        thresholdValue := thresholdValue, thresholdAvailable := thresholdAvailable,
        cutoff := cutoff, convertedQuantity := 0 }
    else
      { mcatType := "Business MCAT", indiamartOutcome := "PASS",
        indiamartCategory := "Non-Retail Correctly Marked", indiamartReason := "",
        thresholdValue := thresholdValue, thresholdAvailable := thresholdAvailable,
        cutoff := cutoff, convertedQuantity := 0 }
  else
    match threshold with
    | none =>
      { mcatType := "Standard MCAT", indiamartOutcome := "ERROR",
        indiamartCategory := "Threshold Not Available",
        indiamartReason := "MCAT threshold not found in attached sheet - cannot perform threshold-based audit",
        thresholdValue := "NA", thresholdAvailable := thresholdAvailable,
        cutoff := cutoff, convertedQuantity := 0 }
    | some t =>
      let quantity := record.quantity
      let convertedQuantity := convertUnit quantity record.quantity_unit t.gl_unit_name
      if convertedQuantity ≤ cutoff then
        if markedAsRetail then
          { mcatType := "Standard MCAT", indiamartOutcome := "PASS",
            indiamartCategory := "Retail Correctly Marked",
            indiamartReason := "Threshold-based evaluation: Quantity " ++ fmtNum quantity
              ++ " " ++ record.quantity_unit ++ " (" ++ toFixed2 convertedQuantity ++ " "
              ++ t.gl_unit_name ++ ") <= threshold " ++ fmtNum cutoff ++ " " ++ t.gl_unit_name,
            thresholdValue := thresholdValue, thresholdAvailable := thresholdAvailable,
            cutoff := cutoff, convertedQuantity := convertedQuantity }
        else
          { mcatType := "Standard MCAT", indiamartOutcome := "ERROR",
            indiamartCategory := "Non-Retail Wrongly Marked",
            indiamartReason := "THRESHOLD VIOLATION: Quantity " ++ fmtNum quantity
              ++ " " ++ record.quantity_unit ++ " (" ++ toFixed2 convertedQuantity ++ " "
              ++ t.gl_unit_name ++ ") is within threshold " ++ fmtNum cutoff ++ " "
              ++ t.gl_unit_name ++ " but system marked as Non-Retail",
            thresholdValue := thresholdValue, thresholdAvailable := thresholdAvailable,
            cutoff := cutoff, convertedQuantity := convertedQuantity }
      else
        if markedAsRetail then
          { mcatType := "Standard MCAT", indiamartOutcome := "ERROR",
            indiamartCategory := "Retail Wrongly Marked",
            indiamartReason := "THRESHOLD VIOLATION: Quantity " ++ fmtNum quantity
              ++ " " ++ record.quantity_unit ++ " (" ++ toFixed2 convertedQuantity ++ " "
              ++ t.gl_unit_name ++ ") exceeds threshold " ++ fmtNum cutoff ++ " "
              ++ t.gl_unit_name ++ " but system marked as Retail",
            thresholdValue := thresholdValue, thresholdAvailable := thresholdAvailable,
            cutoff := cutoff, convertedQuantity := convertedQuantity }
        else
          { mcatType := "Standard MCAT", indiamartOutcome := "PASS",
            indiamartCategory := "Non-Retail Correctly Marked",
            indiamartReason := "Threshold-based evaluation: Quantity " ++ fmtNum quantity
              ++ " " ++ record.quantity_unit ++ " (" ++ toFixed2 convertedQuantity ++ " "
              ++ t.gl_unit_name ++ ") > threshold " ++ fmtNum cutoff ++ " " ++ t.gl_unit_name,
            thresholdValue := thresholdValue, thresholdAvailable := thresholdAvailable,
            cutoff := cutoff, convertedQuantity := convertedQuantity }

/-- Exact lookup key of variants 2 and 3: categoryId, underscore, normalized
unit. -/
def thresholdKey (t : ThresholdEntry) : String :=
  t.fk_glcat_mcat_id ++ "_" ++ normalizeUnit t.gl_unit_name

/-- Embeds the thresholdMap lookup of variants 2 and 3.  A JavaScript Map
built from a pair list keeps the last pair of a duplicated key, so the lookup
scans the reversed table. -/
def thresholdMapGet (thresholdData : List ThresholdEntry) (key : String) :
    Option ThresholdEntry :=
  thresholdData.reverse.find? (fun t => thresholdKey t == key)

/-- Deterministic output fields shared by all three variants. -/
structure DetFields where
  mcat_type : String
  indiamart_audit_outcome : String
  threshold_available : Bool
  threshold_value : String
  indiamart_category : String
  indiamart_reason : String
deriving DecidableEq

/-- Embeds calculateIndiamartAudit of variant 2.  The raw quantity is compared
with the cutoff without any unit conversion.  The final none case models the
state thresholdAvailable true with no entry, which no caller produces. -/
def calculateIndiamartAudit (record : RawRecord) (businessMcatKey : Int)
    (threshold : Option ThresholdEntry) (thresholdAvailable : Bool)
    (markedAsRetail : Bool) : DetFields :=
  let thresholdValue :=
    if thresholdAvailable then
      match threshold with
      | some t => fmtNum t.leap_retail_qty_cutoff ++ " " ++ t.gl_unit_name
      | none => "NA"
    else "NA"
  if businessMcatKey = 1 then
    if markedAsRetail then
      { mcat_type := "Business MCAT", indiamart_audit_outcome := "ERROR",
        threshold_available := thresholdAvailable, threshold_value := thresholdValue,
        indiamart_category := "Retail Wrongly Marked",
        indiamart_reason := "Business MCAT Key = 1 requires Non-Retail classification, but system marked as Retail" }
    else
      { mcat_type := "Business MCAT", indiamart_audit_outcome := "PASS",
        threshold_available := thresholdAvailable, threshold_value := thresholdValue,
        indiamart_category := "Non-Retail Correctly Marked", indiamart_reason := "" }
  else if thresholdAvailable = false then
    { mcat_type := "Standard MCAT", indiamart_audit_outcome := "ERROR",
      threshold_available := thresholdAvailable, threshold_value := "NA",
      indiamart_category := "Threshold Not Available",
      indiamart_reason := "MCAT threshold not found in attached sheet - cannot perform threshold-based audit" }
  else
    match threshold with
    | none =>
      { mcat_type := "Standard MCAT", indiamart_audit_outcome := "ERROR",
        threshold_available := thresholdAvailable, threshold_value := "NA",
        indiamart_category := "Threshold Not Available",
        indiamart_reason := "MCAT threshold not found in attached sheet - cannot perform threshold-based audit" }
    | some t =>
      let quantity := record.quantity
      let cutoff := t.leap_retail_qty_cutoff
      if quantity ≤ cutoff then
        if markedAsRetail then
          { mcat_type := "Standard MCAT", indiamart_audit_outcome := "PASS",
            threshold_available := thresholdAvailable, threshold_value := thresholdValue,
            indiamart_category := "Retail Correctly Marked", indiamart_reason := "" }
        else
          { mcat_type := "Standard MCAT", indiamart_audit_outcome := "ERROR",
            threshold_available := thresholdAvailable, threshold_value := thresholdValue,
            indiamart_category := "Non-Retail Wrongly Marked",
            indiamart_reason := "Quantity " ++ fmtNum quantity ++ " " ++ record.quantity_unit
              ++ " is within threshold " ++ fmtNum cutoff ++ " " ++ t.gl_unit_name
              ++ " but system marked as Non-Retail" }
      else
        if markedAsRetail then
          { mcat_type := "Standard MCAT", indiamart_audit_outcome := "ERROR",
            threshold_available := thresholdAvailable, threshold_value := thresholdValue,
            indiamart_category := "Retail Wrongly Marked",
            indiamart_reason := "Quantity " ++ fmtNum quantity ++ " " ++ record.quantity_unit
              ++ " exceeds threshold " ++ fmtNum cutoff ++ " " ++ t.gl_unit_name
              ++ " but system marked as Retail" }
        else
          { mcat_type := "Standard MCAT", indiamart_audit_outcome := "PASS",
            threshold_available := thresholdAvailable, threshold_value := thresholdValue,
            indiamart_category := "Non-Retail Correctly Marked", indiamart_reason := "" }

/-- Deterministic fields of variant 2 for one record (processRecord up to the
LLM call). -/
def detClassify2 (thresholdData : List ThresholdEntry) (record : RawRecord) : DetFields :=
  let businessMcatKey : Int := record.business_mcat_key.getD 0
  let threshold :=
    thresholdMapGet thresholdData
      (record.fk_glcat_mcat_id ++ "_" ++ normalizeUnit record.quantity_unit)
  calculateIndiamartAudit record businessMcatKey threshold threshold.isSome
    (isMarkedRetailV2 record.bl_segment)

/-- Deterministic fields of variant 3, embedded from its inline record
handler: the same exact-key lookup and decision table as variant 2 written
out with the equality-based markedAsRetail test. -/
def detClassify3 (thresholdData : List ThresholdEntry) (record : RawRecord) : DetFields :=
  let businessMcatKey : Int := record.business_mcat_key.getD 0
  let threshold :=
    thresholdMapGet thresholdData
      (record.fk_glcat_mcat_id ++ "_" ++ normalizeUnit record.quantity_unit)
  let thresholdAvailable := threshold.isSome
  let markedAsRetail := isMarkedRetail record.bl_segment
  let thresholdValue :=
    match threshold with
    | some t => fmtNum t.leap_retail_qty_cutoff ++ " " ++ t.gl_unit_name
    | none => "NA"
  if businessMcatKey = 1 then
    if markedAsRetail then
      { mcat_type := "Business MCAT", indiamart_audit_outcome := "ERROR",
        threshold_available := thresholdAvailable, threshold_value := thresholdValue,
        indiamart_category := "Retail Wrongly Marked",
        indiamart_reason := "Business MCAT Key = 1 requires Non-Retail classification, but system marked as Retail" }
    else
      { mcat_type := "Business MCAT", indiamart_audit_outcome := "PASS",
        threshold_available := thresholdAvailable, threshold_value := thresholdValue,
        indiamart_category := "Non-Retail Correctly Marked", indiamart_reason := "" }
  else
    match threshold with
    | none =>
      { mcat_type := "Standard MCAT", indiamart_audit_outcome := "ERROR",
        threshold_available := thresholdAvailable, threshold_value := "NA",
        indiamart_category := "Threshold Not Available",
        indiamart_reason := "MCAT threshold not found in attached sheet - cannot perform threshold-based audit" }
    | some t =>
      let quantity := record.quantity
      let cutoff := t.leap_retail_qty_cutoff
      if quantity ≤ cutoff then
        if markedAsRetail then
          { mcat_type := "Standard MCAT", indiamart_audit_outcome := "PASS",
            threshold_available := thresholdAvailable, threshold_value := thresholdValue,
            indiamart_category := "Retail Correctly Marked", indiamart_reason := "" }
        else
          { mcat_type := "Standard MCAT", indiamart_audit_outcome := "ERROR",
            threshold_available := thresholdAvailable, threshold_value := thresholdValue,
            indiamart_category := "Non-Retail Wrongly Marked",
            indiamart_reason := "Quantity " ++ fmtNum quantity ++ " " ++ record.quantity_unit
              ++ " is within threshold " ++ fmtNum cutoff ++ " " ++ t.gl_unit_name
              ++ " but system marked as Non-Retail" }
      else
        if markedAsRetail then
          { mcat_type := "Standard MCAT", indiamart_audit_outcome := "ERROR",
            threshold_available := thresholdAvailable, threshold_value := thresholdValue,
            indiamart_category := "Retail Wrongly Marked",
            indiamart_reason := "Quantity " ++ fmtNum quantity ++ " " ++ record.quantity_unit
              ++ " exceeds threshold " ++ fmtNum cutoff ++ " " ++ t.gl_unit_name
              ++ " but system marked as Retail" }
        else
          { mcat_type := "Standard MCAT", indiamart_audit_outcome := "PASS",
            threshold_available := thresholdAvailable, threshold_value := thresholdValue,
            indiamart_category := "Non-Retail Correctly Marked", indiamart_reason := "" }

/-- Projection of the variant-1 state onto the shared deterministic output
fields, as persisted in the variant-1 result rows. -/
def detFields1 (thresholdData : List ThresholdEntry) (record : RawRecord) : DetFields :=
  let st := detClassify1 thresholdData record
  { mcat_type := st.mcatType, indiamart_audit_outcome := st.indiamartOutcome,
    threshold_available := st.thresholdAvailable, threshold_value := st.thresholdValue,
    indiamart_category := st.indiamartCategory, indiamart_reason := st.indiamartReason }

/-- Structured advisory sub-signals of the parsed variant-1 LLM reply. -/
structure LLMSignals where
  pov_signal : Option String
  buyer_intent_signal : Option String
  product_type_assessment : Option String
deriving DecidableEq

/-- Parsed JSON reply of the variant-1 LLM call.  Absent JSON fields are none;
the JavaScript falsy test additionally treats the empty string as absent. -/
structure LLMParsed where
  bl_type : Option String
  threshold_value : Option String
  reasoning : Option String
  evaluation_signals : Option LLMSignals
  conflict_notes : Option String
deriving DecidableEq

/-- Outcome of the advisory call for one record: a parsed reply, or any throw
of the fetch, status check, shape check, or JSON parse (the catch branch of
the record handler). -/
inductive LLMOutcome where
  | success (resp : LLMParsed)
  | failure (message : String)
deriving DecidableEq

/-- Models the JavaScript expression v or-else d on string fields: undefined
and the empty string both fall back to the default. -/
def jsOrString (v : Option String) (d : String) : String :=
  match v with
  | none => d
  | some s => if s == "" then d else s

/-- Truthiness of an optional string field. -/
def jsTruthy (v : Option String) : Bool :=
  match v with
  | none => false
  | some s => !(s == "")

/-- Unit name rendering of the optional chain threshold dot gl_unit_name in a
template literal: undefined prints as the word undefined. -/
def optUnitName (threshold : Option ThresholdEntry) : String :=
  match threshold with
  | some t => t.gl_unit_name
  | none => "undefined"

/-- Status wording used by the variant-1 rationale. -/
def statusWord (outcome : String) : String :=
  if outcome == "PASS" then "COMPLIANT" else "VIOLATION"

/-- Persisted output row of variant 1. -/
structure AuditResultV1 where
  session_id : String
  raw_data_id : String
  eto_ofr_display_id : String
  fk_glcat_mcat_id : String
  category_name : String
  quantity : ℚ
  quantity_unit : String
  bl_segment : String
  business_mcat_key : Int
  mcat_type : String
  indiamart_audit_outcome : String
  threshold_available : Bool
  threshold_value : String
  indiamart_category : String
  indiamart_reason : String
  llm_bl_type : String
  llm_threshold_value : String
  llm_threshold_reason : String
  evaluation_rationale : String
deriving DecidableEq

/-- Embeds buildEvaluationRationale of variant 1, the narrative composed on
the success path of the record handler. -/
def buildEvaluationRationale (record : RawRecord) (businessMcatKey : Int)
    (threshold : Option ThresholdEntry) (thresholdAvailable : Bool) (st : DetState)
    (llmResponse : LLMParsed) : String :=
  let parts : List String :=
    ["EVALUATION SUMMARY FOR " ++ record.eto_ofr_display_id ++ ":", ""]
    ++ (if businessMcatKey = 1 then
          ["PRIMARY SIGNAL: Business MCAT Key = 1",
           "Status: " ++ statusWord st.indiamartOutcome,
           "Reason: " ++ st.indiamartReason]
        else if thresholdAvailable = false then
          ["PRIMARY SIGNAL: Threshold Not Available",
           "Status: " ++ st.indiamartOutcome,
           "Reason: " ++ st.indiamartReason]
        else
          ["EVALUATION PRIORITY HIERARCHY:",
           "1. BINDING THRESHOLD SIGNAL: " ++ st.indiamartCategory,
           "   - Quantity: " ++ fmtNum record.quantity ++ " " ++ record.quantity_unit
             ++ " (converted: " ++ toFixed2 st.convertedQuantity ++ " "
             ++ optUnitName threshold ++ ")",
           "   - Threshold: " ++ fmtNum st.cutoff ++ " " ++ optUnitName threshold,
           "   - Status: " ++ statusWord st.indiamartOutcome,
           "",
           "2. SUPPORTING SIGNALS (Advisory Only):"]
          ++ (match llmResponse.evaluation_signals with
              | none => []
              | some signals =>
                (if jsTruthy signals.pov_signal then
                   ["   - POV Assessment: " ++ jsOrString signals.pov_signal ""]
                 else [])
                ++ (if jsTruthy signals.buyer_intent_signal then
                      ["   - Buyer Intent: " ++ jsOrString signals.buyer_intent_signal ""]
                    else [])
                ++ (if jsTruthy signals.product_type_assessment then
                      ["   - Product Type: " ++ jsOrString signals.product_type_assessment ""]
                    else []))
          ++ ["", "CONFLICT RESOLUTION:"]
          ++ (if jsTruthy llmResponse.conflict_notes then
                ["LLM Assessment Notes: " ++ jsOrString llmResponse.conflict_notes ""]
              else [])
          ++ ["Threshold-based verdict takes PRECEDENCE. Final outcome: "
                ++ statusWord st.indiamartOutcome])
    ++ ["",
        "LLM INDEPENDENT ASSESSMENT: " ++ jsOrString llmResponse.bl_type "N/A",
        "LLM Suggested Threshold: " ++ jsOrString llmResponse.threshold_value "N/A"]
  String.intercalate "\n" parts

/-- Embeds one variant-1 record handler: the deterministic state is computed
before the advisory call, the success branch merges the parsed reply, the
catch branch substitutes the error advisory fields; the deterministic fields
are copied unchanged on both paths. -/
def processRecordV1 (sessionId : String) (thresholdData : List ThresholdEntry)
    (record : RawRecord) (llm : LLMOutcome) : AuditResultV1 :=
  let businessMcatKey : Int := record.business_mcat_key.getD 0
  let threshold := findThreshold thresholdData record.fk_glcat_mcat_id record.quantity_unit
  let st := detClassify1 thresholdData record
  match llm with
  | LLMOutcome.success llmResponse =>
    { session_id := sessionId, raw_data_id := record.id,
      eto_ofr_display_id := record.eto_ofr_display_id,
      fk_glcat_mcat_id := record.fk_glcat_mcat_id,
      category_name := record.eto_ofr_glcat_mcat_name,
      quantity := record.quantity, quantity_unit := record.quantity_unit,
      bl_segment := record.bl_segment, business_mcat_key := businessMcatKey,
      mcat_type := st.mcatType, indiamart_audit_outcome := st.indiamartOutcome,
      threshold_available := st.thresholdAvailable, threshold_value := st.thresholdValue,
      indiamart_category := st.indiamartCategory, indiamart_reason := st.indiamartReason,
      llm_bl_type := jsOrString llmResponse.bl_type "Unknown",
      llm_threshold_value := jsOrString llmResponse.threshold_value "Not specified",
      llm_threshold_reason := jsOrString llmResponse.reasoning "No reasoning provided",
      evaluation_rationale :=
        buildEvaluationRationale record businessMcatKey threshold st.thresholdAvailable
          st llmResponse }
  | LLMOutcome.failure message =>
    { session_id := sessionId, raw_data_id := record.id,
      eto_ofr_display_id := record.eto_ofr_display_id,
      fk_glcat_mcat_id := record.fk_glcat_mcat_id,
      category_name := record.eto_ofr_glcat_mcat_name,
      quantity := record.quantity, quantity_unit := record.quantity_unit,
      bl_segment := record.bl_segment, business_mcat_key := businessMcatKey,
      mcat_type := st.mcatType, indiamart_audit_outcome := st.indiamartOutcome,
      threshold_available := st.thresholdAvailable, threshold_value := st.thresholdValue,
      indiamart_category := st.indiamartCategory, indiamart_reason := st.indiamartReason,
      llm_bl_type := "Error", llm_threshold_value := "Error",
      llm_threshold_reason := "Error processing with AI: " ++ message,
      evaluation_rationale := "Error during LLM evaluation: " ++ message }

/-- Batch size of the variant-1 loop. -/
def batchSize : Nat := 20

/-- Embeds the variant-1 batch loop: slices of twenty records are mapped to
results (Promise.all preserves order) and concatenated in slice order. -/
def auditLoop (f : RawRecord → AuditResultV1) (l : List RawRecord) : List AuditResultV1 :=
  if h : l = [] then []
  else (l.take batchSize).map f ++ auditLoop f (l.drop batchSize)
termination_by l.length
decreasing_by
  simp only [List.length_drop, batchSize]
  have : 0 < l.length := List.length_pos.mpr h
  omega

/-- Embeds the variant-1 run over a request: every raw record is processed
with the advisory outcome the external model produces for it. -/
def runAuditV1 (sessionId : String) (thresholdData : List ThresholdEntry)
    (llmOf : RawRecord → LLMOutcome) (rawData : List RawRecord) : List AuditResultV1 :=
  auditLoop (fun record => processRecordV1 sessionId thresholdData record (llmOf record)) rawData

/-- Threshold table with one kg row for category C. -/
def tdKg : List ThresholdEntry :=
  [{ fk_glcat_mcat_id := "C", glcat_mcat_name := "cat", leap_retail_qty_cutoff := 100,
     gl_unit_name := "kg" }]

/-- Threshold table with kg and piece rows for category C. -/
def tdKgPiece : List ThresholdEntry :=
  [{ fk_glcat_mcat_id := "C", glcat_mcat_name := "cat", leap_retail_qty_cutoff := 100,
     gl_unit_name := "kg" },
   { fk_glcat_mcat_id := "C", glcat_mcat_name := "cat", leap_retail_qty_cutoff := 5,
     gl_unit_name := "piece" }]

/-- Threshold table with one kg row of cutoff 1000 for category C. -/
def tdC2 : List ThresholdEntry :=
  [{ fk_glcat_mcat_id := "C", glcat_mcat_name := "cat", leap_retail_qty_cutoff := 1000,
     gl_unit_name := "kg" }]

/-- Record of 50 kg in category C marked Retail, no override flag. -/
def rKg50 : RawRecord :=
  { id := "r1", eto_ofr_display_id := "D1", fk_glcat_mcat_id := "C",
    eto_ofr_glcat_mcat_name := "catname", quantity := 50, quantity_unit := "kg",
    probable_order_value := "pov", bl_segment := "Retail - Indian",
    bl_details := "details", business_mcat_key := none }

/-- Record of 2 tonne in category C marked Retail, no override flag. -/
def rTonne : RawRecord :=
  { id := "r2", eto_ofr_display_id := "D2", fk_glcat_mcat_id := "C",
    eto_ofr_glcat_mcat_name := "catname", quantity := 2, quantity_unit := "tonne",
    probable_order_value := "pov", bl_segment := "Retail - Indian",
    bl_details := "details", business_mcat_key := none }

/-- Record with the business override flag set and a Retail segment. -/
def rBus : RawRecord :=
  { id := "r3", eto_ofr_display_id := "D3", fk_glcat_mcat_id := "C",
    eto_ofr_glcat_mcat_name := "catname", quantity := 50, quantity_unit := "kg",
    probable_order_value := "pov", bl_segment := "Retail - Indian",
    bl_details := "details", business_mcat_key := some 1 }

/-- Record with business_mcat_key 2, which must not fire the override. -/
def rKey2 : RawRecord :=
  { id := "r4", eto_ofr_display_id := "D4", fk_glcat_mcat_id := "C",
    eto_ofr_glcat_mcat_name := "catname", quantity := 50, quantity_unit := "kg",
    probable_order_value := "pov", bl_segment := "Retail - Indian",
    bl_details := "details", business_mcat_key := some 2 }

/-- Record in category X, which has no threshold rows in tdKg. -/
def rNoTd : RawRecord :=
  { id := "r5", eto_ofr_display_id := "D5", fk_glcat_mcat_id := "X",
    eto_ofr_glcat_mcat_name := "catname", quantity := 50, quantity_unit := "kg",
    probable_order_value := "pov", bl_segment := "Retail - Indian",
    bl_details := "details", business_mcat_key := none }

/-- Advisory oracle whose every call fails. -/
def llmFail : RawRecord → LLMOutcome := fun _ => LLMOutcome.failure "boom"

/-- Advisory oracle whose every call parses successfully. -/
def llmOk : RawRecord → LLMOutcome := fun _ =>
  LLMOutcome.success
    { bl_type := some "Retail", threshold_value := some "10 kg",
      reasoning := some "typical", evaluation_signals := none, conflict_notes := none }

theorem lowerChar_of_find?_none {c : Char}
    (h : lowerPairs.find? (fun p => p.1 == c) = none) : lowerChar c = c := by
  unfold lowerChar
  rw [h]

theorem lowerChar_of_find?_some {c : Char} {p : Char × Char}
    (h : lowerPairs.find? (fun p => p.1 == c) = some p) : lowerChar c = p.2 := by
  unfold lowerChar
  rw [h]

theorem lowerChar_idem (c : Char) : lowerChar (lowerChar c) = lowerChar c := by
  rcases h : lowerPairs.find? (fun p => p.1 == c) with _ | p
  · rw [lowerChar_of_find?_none h]
    exact lowerChar_of_find?_none h
  · have hmem := List.mem_of_find?_eq_some h
    have hnone : ∀ q ∈ lowerPairs, lowerPairs.find? (fun p => p.1 == q.2) = none := by decide
    rw [lowerChar_of_find?_some h, lowerChar_of_find?_none (hnone p hmem)]

theorem wsChar_lowerChar (c : Char) : wsChar (lowerChar c) = wsChar c := by
  rcases h : lowerPairs.find? (fun p => p.1 == c) with _ | p
  · rw [lowerChar_of_find?_none h]
  · have hmem := List.mem_of_find?_eq_some h
    have hc : p.1 = c := by simpa using List.find?_some h
    have hws : ∀ q ∈ lowerPairs, wsChar q.2 = wsChar q.1 := by decide
    rw [lowerChar_of_find?_some h, hws p hmem, hc]

theorem lowerList_idem (l : List Char) : lowerList (lowerList l) = lowerList l := by
  unfold lowerList
  rw [List.map_map]
  exact List.map_congr_left (fun a _ => lowerChar_idem a)

theorem dropWhile_lowerList (l : List Char) :
    (lowerList l).dropWhile wsChar = lowerList (l.dropWhile wsChar) := by
  unfold lowerList
  rw [List.dropWhile_map]
  have hws : (wsChar ∘ lowerChar) = wsChar := funext wsChar_lowerChar
  rw [hws]

theorem lowerList_reverse (l : List Char) :
    lowerList l.reverse = (lowerList l).reverse := by
  unfold lowerList
  exact List.map_reverse lowerChar l

theorem rdropWhile_lowerList (l : List Char) :
    List.rdropWhile wsChar (lowerList l) = lowerList (List.rdropWhile wsChar l) := by
  unfold List.rdropWhile
  rw [← lowerList_reverse, dropWhile_lowerList, lowerList_reverse]

theorem lowerList_trimList (l : List Char) :
    lowerList (trimList l) = trimList (lowerList l) := by
  unfold trimList
  rw [dropWhile_lowerList, rdropWhile_lowerList]

theorem dropWhile_rdropWhile (p : Char → Bool) (l : List Char) :
    (List.rdropWhile p (l.dropWhile p)).dropWhile p = List.rdropWhile p (l.dropWhile p) := by
  rcases hE : List.rdropWhile p (l.dropWhile p) with _ | ⟨x, xs⟩
  · simp
  · have hpre : List.rdropWhile p (l.dropWhile p) <+: l.dropWhile p :=
      List.rdropWhile_prefix p (l.dropWhile p)
    rw [hE] at hpre
    have hne : l.dropWhile p ≠ [] := by
      intro hnil
      rw [hnil] at hpre
      simp at hpre
    have hx : x = (l.dropWhile p).head hne := by
      have hh := hpre.head (by simp)
      simpa using hh
    have hnp : p ((l.dropWhile p).head hne) = false := List.head_dropWhile_not p l hne
    have hpx : p x = false := by rw [hx]; exact hnp
    simp [List.dropWhile_cons, hpx]

theorem trimList_idem (l : List Char) : trimList (trimList l) = trimList l := by
  unfold trimList
  rw [dropWhile_rdropWhile]
  exact List.rdropWhile_idempotent wsChar (l.dropWhile wsChar)

theorem normalizeUnit_idem (u : String) :
    normalizeUnit (normalizeUnit u) = normalizeUnit u := by
  unfold normalizeUnit
  by_cases hu : u = ""
  · simp [hu]
  · rw [if_neg hu]
    by_cases hv : trimStr (toLowerStr u) = ""
    · rw [if_pos hv, hv]
    · rw [if_neg hv]
      unfold trimStr toLowerStr
      show String.mk (trimList (lowerList (trimList (lowerList u.data)))) = _
      rw [lowerList_trimList, lowerList_idem, trimList_idem]

theorem getUnitCategory_normalizeUnit (u : String) :
    getUnitCategory (normalizeUnit u) = getUnitCategory u := by
  unfold getUnitCategory
  rw [normalizeUnit_idem]

theorem lookupFactor_pos (c : Dimension) (u : String) :
    0 < lookupFactor (conversionsFor c) u := by
  unfold lookupFactor
  rcases h : (conversionsFor c).find? (fun p => p.1 == u) with _ | p
  · rw [h]
    norm_num
  · rw [h]
    have hmem := List.mem_of_find?_eq_some h
    have hpos : ∀ q ∈ conversionsFor c, (0 : ℚ) < q.2 := by
      cases c <;> intro q hq <;>
        simp only [conversionsFor, weightConversions, volumeConversions,
          lengthConversions, countConversions] at hq <;>
        fin_cases hq <;> norm_num
    exact hpos p hmem

theorem lookupFactor_ne_zero (c : Dimension) (u : String) :
    lookupFactor (conversionsFor c) u ≠ 0 :=
  ne_of_gt (lookupFactor_pos c u)

theorem isMarkedRetailV2_eq (s : String) : isMarkedRetailV2 s = isMarkedRetail s := by
  unfold isMarkedRetailV2 isMarkedRetail RETAIL_SEGMENTS
  cases h1 : toLowerStr s == "retail - indian" <;>
    cases h2 : toLowerStr s == "retail - foreign" <;>
      simp only [List.contains, List.elem, h1, h2, Bool.false_or, Bool.true_or,
        Bool.or_false, Bool.or_true]

theorem findThreshold_eq_none_iff (td : List ThresholdEntry) (mcatId auditUnit : String) :
    findThreshold td mcatId auditUnit = none ↔ thresholdsByMcat td mcatId = [] := by
  unfold findThreshold
  by_cases hE : (thresholdsByMcat td mcatId).isEmpty
  · simp [hE, List.isEmpty_iff.mp hE]
  · rw [if_neg hE]
    have hne : thresholdsByMcat td mcatId ≠ [] := by
      intro h
      exact hE (by simp [h])
    have hhead : (thresholdsByMcat td mcatId).head? ≠ none := by
      simpa [List.head?_eq_none_iff] using hne
    constructor
    · intro h
      exfalso
      rcases hf : (thresholdsByMcat td mcatId).find?
          (fun t => normalizeUnit t.gl_unit_name == normalizeUnit auditUnit) with _ | t
      · rcases hc : getUnitCategory auditUnit with _ | c
        · simp only [hf, hc] at h
          exact hhead h
        · rcases hg : (thresholdsByMcat td mcatId).find?
              (fun t => decide (getUnitCategory (normalizeUnit t.gl_unit_name) = some c)) with _ | t2
          · simp only [hf, hc, hg] at h
            exact hhead h
          · simp only [hf, hc, hg] at h
            exact Option.noConfusion h
      · simp only [hf] at h
        exact Option.noConfusion h
    · intro h
      exact absurd h hne

theorem auditLoop_eq_map (f : RawRecord → AuditResultV1) (l : List RawRecord) :
    auditLoop f l = l.map f := by
  have H : ∀ n (l : List RawRecord), l.length ≤ n → auditLoop f l = l.map f := by
    intro n
    induction n with
    | zero =>
      intro l hl
      have hnil : l = [] := List.eq_nil_of_length_eq_zero (Nat.le_zero.mp hl)
      subst hnil
      rw [auditLoop]
      simp
    | succ n ih =>
      intro l hl
      rw [auditLoop]
      by_cases h : l = []
      · simp [h]
      · rw [dif_neg h]
        rw [ih (l.drop batchSize) ?_]
        · rw [← List.map_append, List.take_append_drop]
        · simp only [List.length_drop, batchSize]
          have hp : 0 < l.length := List.length_pos.mpr h
          omega
  exact H l.length l le_rfl

theorem runAuditV1_eq_map (sessionId : String) (td : List ThresholdEntry)
    (llmOf : RawRecord → LLMOutcome) (rawData : List RawRecord) :
    runAuditV1 sessionId td llmOf rawData
      = rawData.map (fun record => processRecordV1 sessionId td record (llmOf record)) := by
  unfold runAuditV1
  exact auditLoop_eq_map _ rawData

theorem filter_key_length_one {α β : Type} [DecidableEq β] (g : α → β) (l : List α)
    (hnd : (l.map g).Nodup) (r : α) (hr : r ∈ l) :
    (l.filter (fun x => g x == g r)).length = 1 := by
  have h1 : (l.filter (fun x => g x == g r)).length = (l.map g).count (g r) := by
    rw [List.count_eq_countP]
    rw [List.countP_map]
    rw [List.countP_eq_length_filter]
    rfl
  rw [h1]
  exact List.count_eq_one_of_mem hnd (List.mem_map_of_mem g hr)

theorem convertUnit_same (v : ℚ) (fromU toU : String)
    (h : normalizeUnit fromU = normalizeUnit toU) : convertUnit v fromU toU = v := by
  unfold convertUnit
  rw [if_pos h]

theorem convertUnit_factor (v : ℚ) (fromU toU : String) (c : Dimension)
    (hf : getUnitCategory fromU = some c) (ht : getUnitCategory toU = some c) :
    convertUnit v fromU toU
      = v * lookupFactor (conversionsFor c) (normalizeUnit fromU)
          / lookupFactor (conversionsFor c) (normalizeUnit toU) := by
  unfold convertUnit
  by_cases heq : normalizeUnit fromU = normalizeUnit toU
  · rw [if_pos heq, heq]
    rw [mul_div_assoc, div_self (lookupFactor_ne_zero c (normalizeUnit toU)), mul_one]
  · rw [if_neg heq]
    simp only [getUnitCategory_normalizeUnit, hf, ht, eq_self_iff_true, if_true]

theorem convertUnit_cross (v : ℚ) (fromU toU : String)
    (h : getUnitCategory fromU = none ∨ getUnitCategory toU = none ∨
      getUnitCategory fromU ≠ getUnitCategory toU) :
    convertUnit v fromU toU = v := by
  unfold convertUnit
  by_cases heq : normalizeUnit fromU = normalizeUnit toU
  · rw [if_pos heq]
  · rw [if_neg heq]
    rcases hf : getUnitCategory fromU with _ | cf
    · simp only [getUnitCategory_normalizeUnit, hf]
    · rcases ht : getUnitCategory toU with _ | ct
      · simp only [getUnitCategory_normalizeUnit, hf, ht]
      · have hne : cf ≠ ct := by
          rcases h with h | h | h
          · exact absurd hf (by rw [h]; exact fun he => Option.noConfusion he)
          · exact absurd ht (by rw [h]; exact fun he => Option.noConfusion he)
          · intro hc
            rw [hf, ht, hc] at h
            exact h rfl
        simp only [getUnitCategory_normalizeUnit, hf, ht, if_neg hne]

theorem processRecordV1_raw_data_id (sid : String) (td : List ThresholdEntry)
    (r : RawRecord) (llm : LLMOutcome) :
    (processRecordV1 sid td r llm).raw_data_id = r.id := by
  cases llm <;> rfl

/-- C8: convertUnit returns the value unchanged when the normalized units are
identical and when either dimensional category is unknown or the categories
differ (for example kg to liter); otherwise it rescales by factor(from) over
factor(to) drawn from the fixed per-dimension tables, whose factors are
exactly the ones the specification lists. -/
theorem c8_convertUnit_spec :
    (∀ (v : ℚ) (fromU toU : String), normalizeUnit fromU = normalizeUnit toU →
        convertUnit v fromU toU = v)
  ∧ (∀ (v : ℚ) (fromU toU : String),
        getUnitCategory fromU = none ∨ getUnitCategory toU = none ∨
          getUnitCategory fromU ≠ getUnitCategory toU →
        convertUnit v fromU toU = v)
  ∧ (∀ v : ℚ, convertUnit v "kg" "liter" = v)
  ∧ (∀ (v : ℚ) (fromU toU : String) (c : Dimension),
        getUnitCategory fromU = some c → getUnitCategory toU = some c →
        convertUnit v fromU toU
          = v * lookupFactor (conversionsFor c) (normalizeUnit fromU)
              / lookupFactor (conversionsFor c) (normalizeUnit toU))
  ∧ (lookupFactor weightConversions "mg" = (0.001 : ℚ)
      ∧ lookupFactor weightConversions "g" = (1 : ℚ)
      ∧ lookupFactor weightConversions "kg" = (1000 : ℚ)
      ∧ lookupFactor weightConversions "tonne" = (1000000 : ℚ)
      ∧ lookupFactor weightConversions "lbs" = (453.592 : ℚ)
      ∧ lookupFactor weightConversions "lb" = (453.592 : ℚ)
      ∧ lookupFactor weightConversions "oz" = (28.3495 : ℚ)
      ∧ lookupFactor weightConversions "ounce" = (28.3495 : ℚ)
      ∧ lookupFactor volumeConversions "ml" = (1 : ℚ)
      ∧ lookupFactor volumeConversions "l" = (1000 : ℚ)
      ∧ lookupFactor volumeConversions "liter" = (1000 : ℚ)
      ∧ lookupFactor volumeConversions "litre" = (1000 : ℚ)
      ∧ lookupFactor volumeConversions "cc" = (1 : ℚ)
      ∧ lookupFactor volumeConversions "gallon" = (3785.41 : ℚ)
      ∧ lookupFactor volumeConversions "pint" = (473.176 : ℚ)
      ∧ lookupFactor lengthConversions "mm" = (1 : ℚ)
      ∧ lookupFactor lengthConversions "cm" = (10 : ℚ)
      ∧ lookupFactor lengthConversions "m" = (1000 : ℚ)
      ∧ lookupFactor lengthConversions "km" = (1000000 : ℚ)
      ∧ lookupFactor lengthConversions "inch" = (25.4 : ℚ)
      ∧ lookupFactor lengthConversions "foot" = (304.8 : ℚ)
      ∧ lookupFactor lengthConversions "yard" = (914.4 : ℚ)
      ∧ lookupFactor lengthConversions "mile" = (1609344 : ℚ)
      ∧ lookupFactor countConversions "piece" = (1 : ℚ)
      ∧ lookupFactor countConversions "pieces" = (1 : ℚ)
      ∧ lookupFactor countConversions "unit" = (1 : ℚ)
      ∧ lookupFactor countConversions "units" = (1 : ℚ)
      ∧ lookupFactor countConversions "dozen" = (12 : ℚ)
      ∧ lookupFactor countConversions "count" = (1 : ℚ)) := by
  refine ⟨?_, ?_, ?_, ?_, ?_⟩
  · exact fun v fU tU h => convertUnit_same v fU tU h
  · exact fun v fU tU h => convertUnit_cross v fU tU h
  · intro v
    exact convertUnit_cross v "kg" "liter" (Or.inr (Or.inr (by decide)))
  · exact fun v fU tU c hf ht => convertUnit_factor v fU tU c hf ht
  · exact ⟨rfl, rfl, rfl, rfl, rfl, rfl, rfl, rfl, rfl, rfl, rfl, rfl, rfl, rfl, rfl, rfl, rfl, rfl, rfl, rfl, rfl, rfl, rfl, rfl, rfl, rfl, rfl, rfl, rfl⟩

/-- C8 witness: the cross-dimension no-op at 7, and the identical-unit no-op
at 5 with a unit needing normalization. -/
theorem c8_witness : convertUnit 7 "kg" "liter" = 7 ∧ convertUnit 5 " KG " "kg" = 5 :=
  ⟨c8_convertUnit_spec.2.2.1 7, c8_convertUnit_spec.1 5 " KG " "kg" (by decide)⟩

/-- C9: converting a value from unit A to unit B and back, for two units of
one dimensional category, returns the original value; in the exact rational
model the round trip is exact. -/
theorem c9_convert_roundtrip (fromU toU : String) (c : Dimension)
    (hf : getUnitCategory fromU = some c) (ht : getUnitCategory toU = some c) (v : ℚ) :
    convertUnit (convertUnit v fromU toU) toU fromU = v := by
  rw [convertUnit_factor v fromU toU c hf ht, convertUnit_factor _ toU fromU c ht hf]
  have hF := lookupFactor_ne_zero c (normalizeUnit fromU)
  have hT := lookupFactor_ne_zero c (normalizeUnit toU)
  field_simp

/-- C9 witness: the round trip kg to g to kg at 5. -/
theorem c9_witness : convertUnit (convertUnit 5 "kg" "g") "g" "kg" = 5 :=
  c9_convert_roundtrip "kg" "g" Dimension.weight (by decide) (by decide) 5

/-- C3: the threshold resolver returns the first entry of the category whose
normalized unit equals the normalized record unit; failing that, the first
entry sharing the record unit dimensional category; failing that, the first
entry of the category in insertion order; and none exactly when the category
has no entries at all. -/
theorem c3_findThreshold_spec (td : List ThresholdEntry) (mcatId auditUnit : String) :
    (findThreshold td mcatId auditUnit = none ↔ thresholdsByMcat td mcatId = [])
  ∧ (∀ t, (thresholdsByMcat td mcatId).find?
        (fun t => normalizeUnit t.gl_unit_name == normalizeUnit auditUnit) = some t →
      findThreshold td mcatId auditUnit = some t)
  ∧ (∀ (c : Dimension) (t : ThresholdEntry),
      (thresholdsByMcat td mcatId).find?
        (fun t => normalizeUnit t.gl_unit_name == normalizeUnit auditUnit) = none →
      getUnitCategory auditUnit = some c →
      (thresholdsByMcat td mcatId).find?
        (fun t => decide (getUnitCategory (normalizeUnit t.gl_unit_name) = some c)) = some t →
      findThreshold td mcatId auditUnit = some t)
  ∧ (thresholdsByMcat td mcatId ≠ [] →
      (thresholdsByMcat td mcatId).find?
        (fun t => normalizeUnit t.gl_unit_name == normalizeUnit auditUnit) = none →
      (getUnitCategory auditUnit = none ∨
        ∃ c, getUnitCategory auditUnit = some c ∧
          (thresholdsByMcat td mcatId).find?
            (fun t => decide (getUnitCategory (normalizeUnit t.gl_unit_name) = some c)) = none) →
      findThreshold td mcatId auditUnit = (thresholdsByMcat td mcatId).head?) := by
  refine ⟨findThreshold_eq_none_iff td mcatId auditUnit, ?_, ?_, ?_⟩
  · intro t hf
    have hne : thresholdsByMcat td mcatId ≠ [] :=
      List.ne_nil_of_mem (List.mem_of_find?_eq_some hf)
    have hE : ¬ ((thresholdsByMcat td mcatId).isEmpty = true) := by
      simpa [List.isEmpty_iff] using hne
    unfold findThreshold
    rw [if_neg hE]
    simp only [hf]
  · intro c t hf hc hg
    have hne : thresholdsByMcat td mcatId ≠ [] :=
      List.ne_nil_of_mem (List.mem_of_find?_eq_some hg)
    have hE : ¬ ((thresholdsByMcat td mcatId).isEmpty = true) := by
      simpa [List.isEmpty_iff] using hne
    unfold findThreshold
    rw [if_neg hE]
    simp only [hf, hc, hg]
  · intro hne hf hco
    have hE : ¬ ((thresholdsByMcat td mcatId).isEmpty = true) := by
      simpa [List.isEmpty_iff] using hne
    unfold findThreshold
    rw [if_neg hE]
    rcases hco with hc | ⟨c, hc, hg⟩
    · simp only [hf, hc]
    · simp only [hf, hc, hg]

/-- C3 witness: category C with entries in kg and piece, record unit tonne: a
weight-dimension match picks the kg entry. -/
theorem c3_witness :
    findThreshold tdKgPiece "C" "tonne"
      = some { fk_glcat_mcat_id := "C", glcat_mcat_name := "cat",
               leap_retail_qty_cutoff := 100, gl_unit_name := "kg" } :=
  (c3_findThreshold_spec tdKgPiece "C" "tonne").2.2.1 Dimension.weight
    { fk_glcat_mcat_id := "C", glcat_mcat_name := "cat",
      leap_retail_qty_cutoff := 100, gl_unit_name := "kg" }
    (by decide) (by decide) (by decide)

/-- C1: with no business override and a resolved threshold entry, the
classifier converts the quantity into the threshold unit, compares it
inclusively with the cutoff, tests the segment case-insensitively against the
two retail labels, and issues PASS Retail Correctly Marked, PASS Non-Retail
Correctly Marked, ERROR Non-Retail Wrongly Marked, or ERROR Retail Wrongly
Marked according to the four combinations. -/
theorem c1_threshold_branch (td : List ThresholdEntry) (r : RawRecord) (t : ThresholdEntry)
    (hov : r.business_mcat_key.getD 0 ≠ 1)
    (ht : findThreshold td r.fk_glcat_mcat_id r.quantity_unit = some t) :
    ((detClassify1 td r).convertedQuantity
        = convertUnit r.quantity r.quantity_unit t.gl_unit_name)
  ∧ (isMarkedRetail r.bl_segment = true ↔
        (toLowerStr r.bl_segment = "retail - indian"
          ∨ toLowerStr r.bl_segment = "retail - foreign"))
  ∧ (convertUnit r.quantity r.quantity_unit t.gl_unit_name = t.leap_retail_qty_cutoff →
        convertUnit r.quantity r.quantity_unit t.gl_unit_name ≤ t.leap_retail_qty_cutoff)
  ∧ (convertUnit r.quantity r.quantity_unit t.gl_unit_name ≤ t.leap_retail_qty_cutoff →
        isMarkedRetail r.bl_segment = true →
        (detClassify1 td r).indiamartOutcome = "PASS"
      ∧ (detClassify1 td r).indiamartCategory = "Retail Correctly Marked")
  ∧ (¬ convertUnit r.quantity r.quantity_unit t.gl_unit_name ≤ t.leap_retail_qty_cutoff →
        isMarkedRetail r.bl_segment = false →
        (detClassify1 td r).indiamartOutcome = "PASS"
      ∧ (detClassify1 td r).indiamartCategory = "Non-Retail Correctly Marked")
  ∧ (convertUnit r.quantity r.quantity_unit t.gl_unit_name ≤ t.leap_retail_qty_cutoff →
        isMarkedRetail r.bl_segment = false →
        (detClassify1 td r).indiamartOutcome = "ERROR"
      ∧ (detClassify1 td r).indiamartCategory = "Non-Retail Wrongly Marked")
  ∧ (¬ convertUnit r.quantity r.quantity_unit t.gl_unit_name ≤ t.leap_retail_qty_cutoff →
        isMarkedRetail r.bl_segment = true →
        (detClassify1 td r).indiamartOutcome = "ERROR"
      ∧ (detClassify1 td r).indiamartCategory = "Retail Wrongly Marked") := by
  refine ⟨?_, ?_, ?_, ?_, ?_, ?_, ?_⟩
  · by_cases hle : convertUnit r.quantity r.quantity_unit t.gl_unit_name
        ≤ t.leap_retail_qty_cutoff <;>
      cases hm : isMarkedRetail r.bl_segment <;>
        simp [detClassify1, ht, hov, hle, hm]
  · simp [isMarkedRetail, Bool.or_eq_true, beq_iff_eq]
  · intro h
    exact le_of_eq h
  · intro hle hm
    constructor <;> simp [detClassify1, ht, hov, hle, hm]
  · intro hle hm
    constructor <;> simp [detClassify1, ht, hov, hle, hm]
  · intro hle hm
    constructor <;> simp [detClassify1, ht, hov, hle, hm]
  · intro hle hm
    constructor <;> simp [detClassify1, ht, hov, hle, hm]

/-- C1 witness: 50 kg against a 100 kg cutoff marked Retail passes as Retail
Correctly Marked, and the boundary quantity 100 kg still counts as retail. -/
theorem c1_witness :
    ((detClassify1 tdKg rKg50).indiamartOutcome = "PASS"
  ∧ (detClassify1 tdKg rKg50).indiamartCategory = "Retail Correctly Marked")
  ∧ (detClassify1 tdKg { rKg50 with quantity := 100 }).indiamartOutcome = "PASS"
  ∧ (detClassify1 tdKg { rKg50 with quantity := 100 }).indiamartCategory
      = "Retail Correctly Marked" := by
  refine ⟨?_, ?_⟩
  · exact (c1_threshold_branch tdKg rKg50
      { fk_glcat_mcat_id := "C", glcat_mcat_name := "cat",
        leap_retail_qty_cutoff := 100, gl_unit_name := "kg" }
      (by decide) (by decide)).2.2.2.1 (by decide) (by decide)
  · have h := (c1_threshold_branch tdKg { rKg50 with quantity := 100 }
      { fk_glcat_mcat_id := "C", glcat_mcat_name := "cat",
        leap_retail_qty_cutoff := 100, gl_unit_name := "kg" }
      (by decide) (by decide))
    exact h.2.2.2.1 (h.2.2.1 (by decide)) (by decide)

/-- C5: with the business override flag equal to one the classifier reports a
Business MCAT and decides from the segment alone: Retail segments give ERROR
Retail Wrongly Marked with the override reason, any other segment gives PASS
Non-Retail Correctly Marked with an empty reason, independently of quantity
and threshold table. -/
theorem c5_business_override (td : List ThresholdEntry) (r : RawRecord)
    (hov : r.business_mcat_key.getD 0 = 1) :
    ((detClassify1 td r).mcatType = "Business MCAT")
  ∧ (isMarkedRetail r.bl_segment = true →
        (detClassify1 td r).indiamartOutcome = "ERROR"
      ∧ (detClassify1 td r).indiamartCategory = "Retail Wrongly Marked"
      ∧ (detClassify1 td r).indiamartReason
          = "Business MCAT Key = 1 requires Non-Retail classification, but system marked as Retail")
  ∧ (isMarkedRetail r.bl_segment = false →
        (detClassify1 td r).indiamartOutcome = "PASS"
      ∧ (detClassify1 td r).indiamartCategory = "Non-Retail Correctly Marked"
      ∧ (detClassify1 td r).indiamartReason = "")
  ∧ (∀ (td2 : List ThresholdEntry) (q2 : ℚ),
        ((detClassify1 td2 { r with quantity := q2 }).indiamartOutcome
            = (detClassify1 td r).indiamartOutcome)
      ∧ ((detClassify1 td2 { r with quantity := q2 }).indiamartCategory
            = (detClassify1 td r).indiamartCategory)
      ∧ ((detClassify1 td2 { r with quantity := q2 }).indiamartReason
            = (detClassify1 td r).indiamartReason)
      ∧ ((detClassify1 td2 { r with quantity := q2 }).mcatType
            = (detClassify1 td r).mcatType)) := by
  refine ⟨?_, ?_, ?_, ?_⟩
  · cases hm : isMarkedRetail r.bl_segment <;> simp [detClassify1, hov, hm]
  · intro hm
    refine ⟨?_, ?_, ?_⟩ <;> simp [detClassify1, hov, hm]
  · intro hm
    refine ⟨?_, ?_, ?_⟩ <;> simp [detClassify1, hov, hm]
  · intro td2 q2
    cases hm : isMarkedRetail r.bl_segment <;>
      refine ⟨?_, ?_, ?_, ?_⟩ <;> simp [detClassify1, hov, hm]

/-- C5 witness: override flag one with segment Retail - Indian yields ERROR
Retail Wrongly Marked whatever the threshold table says. -/
theorem c5_witness :
    (detClassify1 tdKg rBus).indiamartOutcome = "ERROR"
  ∧ (detClassify1 tdKg rBus).indiamartCategory = "Retail Wrongly Marked"
  ∧ (detClassify1 [] rBus).indiamartOutcome = "ERROR" := by
  have h := c5_business_override tdKg rBus (by decide)
  have h2 := c5_business_override [] rBus (by decide)
  exact ⟨(h.2.1 (by decide)).1, (h.2.1 (by decide)).2.1, (h2.2.1 (by decide)).1⟩

/-- C7: with no business override and a category that has no threshold rows,
the verdict is the normal outcome ERROR Threshold Not Available with display
NA and the missing-threshold reason; the run still returns a row for the
record rather than aborting. -/
theorem c7_threshold_not_available (td : List ThresholdEntry) (r : RawRecord)
    (hov : r.business_mcat_key.getD 0 ≠ 1)
    (hempty : thresholdsByMcat td r.fk_glcat_mcat_id = []) :
    (detClassify1 td r).indiamartOutcome = "ERROR"
  ∧ (detClassify1 td r).indiamartCategory = "Threshold Not Available"
  ∧ (detClassify1 td r).thresholdValue = "NA"
  ∧ (detClassify1 td r).indiamartReason
      = "MCAT threshold not found in attached sheet - cannot perform threshold-based audit"
  ∧ (detClassify1 td r).thresholdAvailable = false
  ∧ (∀ (sid : String) (llmOf : RawRecord → LLMOutcome),
        (runAuditV1 sid td llmOf [r]).length = 1) := by
  have hn : findThreshold td r.fk_glcat_mcat_id r.quantity_unit = none :=
    (findThreshold_eq_none_iff td r.fk_glcat_mcat_id r.quantity_unit).mpr hempty
  refine ⟨?_, ?_, ?_, ?_, ?_, ?_⟩
  · simp [detClassify1, hn, hov]
  · simp [detClassify1, hn, hov]
  · simp [detClassify1, hn, hov]
  · simp [detClassify1, hn, hov]
  · simp [detClassify1, hn, hov]
  · intro sid llmOf
    rw [runAuditV1_eq_map]
    rfl

/-- C7 witness: category X has no rows in tdKg, so the record gets the
Threshold Not Available verdict and the batch still yields one row. -/
theorem c7_witness :
    (detClassify1 tdKg rNoTd).indiamartOutcome = "ERROR"
  ∧ (detClassify1 tdKg rNoTd).indiamartCategory = "Threshold Not Available"
  ∧ (detClassify1 tdKg rNoTd).thresholdValue = "NA"
  ∧ (runAuditV1 "s" tdKg llmFail [rNoTd]).length = 1 := by
  have h := c7_threshold_not_available tdKg rNoTd (by decide) (by decide)
  exact ⟨h.1, h.2.1, h.2.2.1, h.2.2.2.2.2 "s" llmFail⟩

/-- C10: the override branch fires only on the exact value one: any other
flag (zero, two, or missing, which the JavaScript or-zero coercion turns into
zero) keeps the Standard MCAT threshold path; the persisted key equals the
coerced input, so a missing flag and an explicit zero are indistinguishable
in the output. -/
theorem c10_override_only_on_one (td : List ThresholdEntry) (r : RawRecord)
    (sid : String) (llm : LLMOutcome) :
    (r.business_mcat_key.getD 0 ≠ 1 → (detClassify1 td r).mcatType = "Standard MCAT")
  ∧ ((processRecordV1 sid td r llm).business_mcat_key = r.business_mcat_key.getD 0)
  ∧ (processRecordV1 sid td { r with business_mcat_key := none } llm
      = processRecordV1 sid td { r with business_mcat_key := some 0 } llm) := by
  refine ⟨?_, ?_, ?_⟩
  · intro hov
    rcases ht : findThreshold td r.fk_glcat_mcat_id r.quantity_unit with _ | t
    · simp [detClassify1, hov, ht]
    · by_cases hle : convertUnit r.quantity r.quantity_unit t.gl_unit_name
          ≤ t.leap_retail_qty_cutoff <;>
        cases hm : isMarkedRetail r.bl_segment <;>
          simp [detClassify1, hov, ht, hle, hm]
  · cases llm <;> rfl
  · cases llm <;> rfl

/-- C10 witness: flag two keeps the Standard MCAT path and is persisted as
two; the record with a missing flag persists zero. -/
theorem c10_witness :
    (detClassify1 tdKg rKey2).mcatType = "Standard MCAT"
  ∧ (processRecordV1 "s" tdKg rKey2 (LLMOutcome.failure "boom")).business_mcat_key = 2
  ∧ (processRecordV1 "s" tdKg rKg50 (LLMOutcome.failure "boom")).business_mcat_key = 0 := by
  have h := c10_override_only_on_one tdKg rKey2 "s" (LLMOutcome.failure "boom")
  have h2 := c10_override_only_on_one tdKg rKg50 "s" (LLMOutcome.failure "boom")
  exact ⟨h.1 (by decide), h.2.1, h2.2.1⟩

/-- C4: the six persisted deterministic fields of a variant-1 output row are
the same whatever the advisory call returns and whether it fails: the
advisory reply never overrides the deterministic verdict in the persisted
fields. -/
theorem c4_llm_independence (sid : String) (td : List ThresholdEntry) (r : RawRecord)
    (llm1 llm2 : LLMOutcome) :
    ((processRecordV1 sid td r llm1).mcat_type = (processRecordV1 sid td r llm2).mcat_type)
  ∧ ((processRecordV1 sid td r llm1).indiamart_audit_outcome
      = (processRecordV1 sid td r llm2).indiamart_audit_outcome)
  ∧ ((processRecordV1 sid td r llm1).threshold_available
      = (processRecordV1 sid td r llm2).threshold_available)
  ∧ ((processRecordV1 sid td r llm1).threshold_value
      = (processRecordV1 sid td r llm2).threshold_value)
  ∧ ((processRecordV1 sid td r llm1).indiamart_category
      = (processRecordV1 sid td r llm2).indiamart_category)
  ∧ ((processRecordV1 sid td r llm1).indiamart_reason
      = (processRecordV1 sid td r llm2).indiamart_reason) := by
  cases llm1 <;> cases llm2 <;> exact ⟨rfl, rfl, rfl, rfl, rfl, rfl⟩

/-- C6: the variant-1 run returns exactly one row per input record in input
order, each row carrying the id of its record, which under distinct input
ids matches exactly one input; changing only the advisory outcomes of other
records never changes a record's row. -/
theorem c6_one_result_per_record (sid : String) (td : List ThresholdEntry)
    (llmOf llmOf2 : RawRecord → LLMOutcome) (rawData : List RawRecord)
    (hnd : (rawData.map (fun r => r.id)).Nodup) :
    ((runAuditV1 sid td llmOf rawData).length = rawData.length)
  ∧ (∀ i : Nat, ((runAuditV1 sid td llmOf rawData)[i]?).map (fun a => a.raw_data_id)
        = (rawData[i]?).map (fun r => r.id))
  ∧ (∀ a ∈ runAuditV1 sid td llmOf rawData,
        (rawData.filter (fun r => r.id == a.raw_data_id)).length = 1)
  ∧ (∀ (i : Nat) (r : RawRecord), rawData[i]? = some r → llmOf r = llmOf2 r →
        (runAuditV1 sid td llmOf rawData)[i]? = (runAuditV1 sid td llmOf2 rawData)[i]?) := by
  refine ⟨?_, ?_, ?_, ?_⟩
  · rw [runAuditV1_eq_map]
    exact List.length_map rawData _
  · intro i
    rw [runAuditV1_eq_map]
    rw [List.getElem?_map]
    rcases hi : rawData[i]? with _ | r
    · rfl
    · show some ((processRecordV1 sid td r (llmOf r)).raw_data_id) = some r.id
      rw [processRecordV1_raw_data_id]
  · intro a ha
    rw [runAuditV1_eq_map] at ha
    obtain ⟨r, hr, hra⟩ := List.mem_map.mp ha
    have hid : a.raw_data_id = r.id := by
      rw [← hra]
      exact processRecordV1_raw_data_id sid td r (llmOf r)
    rw [hid]
    exact filter_key_length_one (fun r => r.id) rawData hnd r hr
  · intro i r hir heq
    rw [runAuditV1_eq_map, runAuditV1_eq_map, List.getElem?_map, List.getElem?_map, hir]
    show some (processRecordV1 sid td r (llmOf r)) = some (processRecordV1 sid td r (llmOf2 r))
    rw [heq]

/-- C6 witness: a two-record batch with distinct ids and a failing advisory
oracle still yields two rows whose first row carries the first id. -/
theorem c6_witness :
    (runAuditV1 "s" tdKg llmFail [rKg50, rKey2]).length = 2
  ∧ ((runAuditV1 "s" tdKg llmFail [rKg50, rKey2])[0]?).map (fun a => a.raw_data_id)
      = some "r1" := by
  have h := c6_one_result_per_record "s" tdKg llmFail llmFail [rKg50, rKey2] (by decide)
  constructor
  · rw [h.1]
    rfl
  · have h0 := h.2.1 0
    rw [h0]
    rfl

theorem detClassify1_thresholdAvailable (td : List ThresholdEntry) (r : RawRecord) :
    (detClassify1 td r).thresholdAvailable
      = (findThreshold td r.fk_glcat_mcat_id r.quantity_unit).isSome := by
  by_cases hov : r.business_mcat_key.getD 0 = 1 <;>
    rcases ht : findThreshold td r.fk_glcat_mcat_id r.quantity_unit with _ | t <;>
      cases hm : isMarkedRetail r.bl_segment <;>
        simp [detClassify1, hov, ht, hm] <;> split_ifs <;> rfl

/-- C2 counterexample: two tonne in category C against a single 1000 kg
threshold row.  Variant 1 resolves the row by weight-dimension fallback and
reports the threshold available; variants 2 and 3 miss the exact key C_tonne
and report Threshold Not Available, so the deterministic output fields of the
variants differ on the same request. -/
theorem c2_counterexample :
    (detFields1 tdC2 rTonne).threshold_available = true
  ∧ (detClassify2 tdC2 rTonne).threshold_available = false
  ∧ detFields1 tdC2 rTonne ≠ detClassify2 tdC2 rTonne := by
  have ht : findThreshold tdC2 rTonne.fk_glcat_mcat_id rTonne.quantity_unit
      = some { fk_glcat_mcat_id := "C", glcat_mcat_name := "cat",
               leap_retail_qty_cutoff := 1000, gl_unit_name := "kg" } := by decide
  have hA : (detFields1 tdC2 rTonne).threshold_available = true := by
    simp [detFields1, detClassify1_thresholdAvailable, ht]
  have hB : (detClassify2 tdC2 rTonne).threshold_available = false := by decide
  refine ⟨hA, hB, fun h => ?_⟩
  rw [h, hB] at hA
  exact Bool.noConfusion hA

/-- C2 amended: variants 2 and 3 produce identical deterministic output
fields on every record and threshold table; variant 1 in general does not
(its dimension-aware resolution and unit conversion change
threshold_available, threshold_value and the verdict), though under an
active business override it still agrees with them on mcat_type, outcome and
category. -/
theorem c2_amended (td : List ThresholdEntry) (r : RawRecord) :
    (detClassify2 td r = detClassify3 td r)
  ∧ (r.business_mcat_key.getD 0 = 1 →
        ((detFields1 td r).mcat_type = (detClassify2 td r).mcat_type
      ∧ (detFields1 td r).indiamart_audit_outcome
          = (detClassify2 td r).indiamart_audit_outcome
      ∧ (detFields1 td r).indiamart_category = (detClassify2 td r).indiamart_category)) := by
  constructor
  · unfold detClassify2 detClassify3
    rw [isMarkedRetailV2_eq]
    rcases hth : thresholdMapGet td
        (r.fk_glcat_mcat_id ++ "_" ++ normalizeUnit r.quantity_unit) with _ | t
    · by_cases hov : r.business_mcat_key.getD 0 = 1 <;>
        cases hm : isMarkedRetail r.bl_segment <;>
          simp [calculateIndiamartAudit, hov, hm]
    · by_cases hov : r.business_mcat_key.getD 0 = 1 <;>
        cases hm : isMarkedRetail r.bl_segment <;>
          by_cases hle : r.quantity ≤ t.leap_retail_qty_cutoff <;>
            simp [calculateIndiamartAudit, hov, hm, hle]
  · intro hov
    cases hm : isMarkedRetail r.bl_segment <;>
      rcases hth2 : thresholdMapGet td
          (r.fk_glcat_mcat_id ++ "_" ++ normalizeUnit r.quantity_unit) with _ | t2 <;>
        refine ⟨?_, ?_, ?_⟩ <;>
          simp [detFields1, detClassify1, detClassify2, calculateIndiamartAudit,
            isMarkedRetailV2_eq, hov, hm, hth2]

/-- C2 amended witness: the variant equality at a concrete record, and the
override-case agreement at the overridden record. -/
theorem c2_amended_witness :
    detClassify2 tdKg rKg50 = detClassify3 tdKg rKg50
  ∧ (detFields1 tdKg rBus).mcat_type = (detClassify2 tdKg rBus).mcat_type := by
  refine ⟨(c2_amended tdKg rKg50).1, ?_⟩
  exact ((c2_amended tdKg rBus).2 (by decide)).1
